import Mathlib

/-!
Verification of the streaming-relay specification of the chatbot repository.

The repository contains three HTTP handlers that the claims are about:

* `supabase/functions/chat-text/index.ts` — the deployed Supabase edge
  function.  It validates the `message` field, calls the model provider in
  streaming mode and re-emits each non-empty chunk as a server-sent event
  `data: <json {content}>`, terminated by `data: {done:true}` on success or
  `data: {error:"Streaming failed"}` on a mid-stream upstream error.  It
  performs no store writes at all.
* the task-6 chat route (`app/api/chat/route.ts`, embedded in the planning
  corpus) — validates a `messages` array, lazily creates a Chat row when
  `chatId` is falsy, best-effort inserts the user message, then streams raw
  chunk text while accumulating `fullResponse`; on upstream completion it
  best-effort inserts the assistant message and closes, on upstream error it
  aborts the stream via `controller.error`.
* the Next.js proxy route `app/src/app/api/chat-text/route.ts` — forwards the
  body to the edge function and relays the stream on a 2xx upstream status,
  collapsing every non-2xx upstream response into a fixed 500 JSON error.

The image-generation route of task 3 and the error mapper of task 11 are
embedded as well.  Each handler is modelled as a pure function from its
request, a store-behaviour environment and the upstream outcome to a result
record carrying the HTTP status, the response headers (which in HTTP precede
every body byte), the body shape, and an ordered trace of the externally
visible events: store-insert attempts, the upstream call, body emissions, and
the final clean close or abort of the body stream.
-/

/-- One incremental unit delivered by the upstream provider; `content` models
`chunk.choices[0]?.delta?.content`, which may be absent. -/
structure Chunk where
  content : Option String
  deriving DecidableEq, Repr

/-- How the upstream stream ends after delivering its chunks: normal
completion, or an error raised mid-stream. -/
inductive UpOutcome
  | ok
  | err
  deriving DecidableEq, Repr

/-- One upstream streaming session: the chunks delivered before the end, and
how the iteration ended. -/
structure UpTrace where
  chunks : List Chunk
  outcome : UpOutcome
  deriving DecidableEq, Repr

/-- The chunk text the handlers work with: `delta?.content` coalesced with the empty string. -/
def rawContent (c : Chunk) : String :=
  match c.content with
  | some s => s
  | none => ""

/-- JavaScript truthiness of the chunk content, i.e. the `if (content)` guard:
present and non-empty. -/
def hasContent (c : Chunk) : Bool :=
  match c.content with
  | some s => s ≠ ""
  | none => false

/-- String non-emptiness, as a Bool for use in filters. -/
def isNonEmpty (s : String) : Bool :=
  s ≠ ""

/-- Concatenation of a list of strings, used for the accumulated response. -/
def joinStr : List String → String
  | [] => ""
  | s :: rest => s ++ joinStr rest

/-- A server-sent event of the chat-text edge function: a `data:` frame whose
JSON payload has a `content` field, a `done` field, or an `error` field. -/
inductive SSEvent
  | content (s : String)
  | done
  | error (msg : String)
  deriving DecidableEq, Repr

/-- A JSON value arriving in a request field: a string, or anything that is
not a string (number, object, null, ...). -/
inductive MsgVal
  | str (s : String)
  | nonStr
  deriving DecidableEq, Repr

/-- One conversation message as sent by the client. -/
structure ChatMsg where
  role : String
  content : String
  deriving DecidableEq, Repr

/-- The `messages` request field of the task-6 route: an array, or a non-array
JSON value. -/
inductive MessagesVal
  | arr (ms : List ChatMsg)
  | nonArr
  deriving DecidableEq, Repr

/-- A store insert attempted by a handler. -/
inductive StoreOp
  | insertChat (id : String)
  | insertMsg (chatId : String) (content : String) (role : String)
      (msgType : String) (imageUrl : Option String)
  deriving DecidableEq, Repr

/-- Externally visible events of one handler invocation, in order:
a store-insert attempt together with whether it succeeded, the call to the
model provider, a raw text body chunk (task-6 route), a server-sent event
(chat-text function), a clean close of the body stream, or an abort of the
body stream via `controller.error`. -/
inductive Ev
  | store (op : StoreOp) (ok : Bool)
  | callUpstream
  | emit (s : String)
  | emitEvent (e : SSEvent)
  | closeStream
  | abortStream
  deriving DecidableEq, Repr

/-- Shape of a response body: a JSON object with an `error` field, a JSON
object with an `imageUrl` field, a server-sent-event stream, or a raw text
stream.  The streamed content itself is recorded in the event trace. -/
inductive RespBody
  | errJson (msg : String)
  | imageJson (url : String)
  | sse
  | plain
  deriving DecidableEq, Repr

/-- Result of one handler invocation: HTTP status, response headers (sent
before the first body byte), body shape, and the ordered event trace. -/
structure HandlerResult where
  status : Nat
  headers : List (String × String)
  body : RespBody
  trace : List Ev
  deriving DecidableEq, Repr

/-- Success/failure behaviour of the store for one invocation, plus the
identifier the store assigns to a newly inserted Chat row. -/
structure StoreEnv where
  newChatId : String
  chatInsertOk : Bool
  userInsertOk : Bool
  assistantInsertOk : Bool
  deriving DecidableEq, Repr

/-- The store-insert attempts recorded in a trace, in order. -/
def storeOps (tr : List Ev) : List StoreOp :=
  tr.filterMap fun e =>
    match e with
    | Ev.store op _ => some op
    | _ => none

/-- The store inserts that actually succeeded, i.e. the rows created. -/
def createdRows (tr : List Ev) : List StoreOp :=
  tr.filterMap fun e =>
    match e with
    | Ev.store op true => some op
    | _ => none

/-- Whether a store operation inserts an assistant-role Message row. -/
def isAssistantOp (op : StoreOp) : Bool :=
  match op with
  | StoreOp.insertMsg _ _ role _ _ => role = "assistant"
  | _ => false

/-- Whether a store operation inserts a user-role Message row. -/
def isUserOp (op : StoreOp) : Bool :=
  match op with
  | StoreOp.insertMsg _ _ role _ _ => role = "user"
  | _ => false

/-- Assistant-row insert attempts of a trace (successful or not). -/
def assistantOps (tr : List Ev) : List StoreOp :=
  (storeOps tr).filter isAssistantOp

/-- Contents of the assistant-row inserts attempted in a trace. -/
def assistantTexts (tr : List Ev) : List String :=
  (assistantOps tr).filterMap fun op =>
    match op with
    | StoreOp.insertMsg _ content _ _ _ => some content
    | _ => none

/-- The `content` payloads of a server-sent event list, in order. -/
def contentsOf (es : List SSEvent) : List String :=
  es.filterMap fun e =>
    match e with
    | SSEvent.content s => some s
    | _ => none

/-- The raw text chunks emitted to the body in a trace, in order. -/
def emitsOf (tr : List Ev) : List String :=
  tr.filterMap fun e =>
    match e with
    | Ev.emit s => some s
    | _ => none

/-- JavaScript truthy-string check shared by handler validation:
accepts exactly the values that are strings and non-empty. -/
def truthyString (v : Option MsgVal) : Option String :=
  match v with
  | some (MsgVal.str s) => if s = "" then none else some s
  | _ => none

/-! ### The chat-text edge function (supabase/functions/chat-text/index.ts) -/

/-- Request body of the chat-text edge function: `{ message, history = [] }`.
The function accepts no chat identifier at all. -/
structure ChatTextReq where
  message : Option MsgVal
  history : List ChatMsg
  deriving DecidableEq, Repr

/-- Modelled from the spec: the header constants imported from
`../_lib/cors.ts`, a file not present in the sources.  The spec describes the
relay response headers only as stream headers plus an out-of-band chat
identifier; these are the standard Supabase CORS fields the template uses,
none of which carries a chat identifier. -/
def corsHeaders : List (String × String) :=
  [("Access-Control-Allow-Origin", "*"),
   ("Access-Control-Allow-Headers", "authorization, x-client-info, apikey, content-type")]

/-- Headers of the chat-text streaming response. -/
def chatTextStreamHeaders : List (String × String) :=
  corsHeaders ++
    [("Content-Type", "text/event-stream"),
     ("Cache-Control", "no-cache"),
     ("Connection", "keep-alive")]

/-- Headers of the chat-text JSON error responses. -/
def corsJsonHeaders : List (String × String) :=
  corsHeaders ++ [("Content-Type", "application/json")]

/-- The server-sent events the chat-text function enqueues for one upstream
session: one `content` event per chunk passing the `if (content)` guard, then
`done` on normal completion, or the fixed `error` event when the iteration
raised. -/
def chatTextStream (t : UpTrace) : List SSEvent :=
  (t.chunks.filterMap fun c =>
    if hasContent c then some (SSEvent.content (rawContent c)) else none) ++
  (match t.outcome with
   | UpOutcome.ok => [SSEvent.done]
   | UpOutcome.err => [SSEvent.error "Streaming failed"])

/-- Event trace of a chat-text streaming response: the upstream call, then the
enqueued events, then `controller.close()` (called on both the success and the
error branch). -/
def chatTextEvents (t : UpTrace) : List Ev :=
  [Ev.callUpstream] ++ (chatTextStream t).map Ev.emitEvent ++ [Ev.closeStream]

/-- The chat-text edge function.  Validation of `message` happens before the
API-key lookup and before any upstream call; the function never touches the
store. -/
def chatTextRun (req : ChatTextReq) (apiKey : Option String) (up : UpTrace) :
    HandlerResult :=
  match truthyString req.message with
  | none =>
    ⟨400, corsJsonHeaders, RespBody.errJson "Message is required and must be a string", []⟩
  | some _ =>
    match apiKey with
    | none => ⟨500, corsJsonHeaders, RespBody.errJson "OpenAI API key not configured", []⟩
    | some _ => ⟨200, chatTextStreamHeaders, RespBody.sse, chatTextEvents up⟩

/-! ### The task-6 chat route (app/api/chat/route.ts of the planning corpus) -/

/-- Request body of the task-6 route: `{ messages, chatId }`. -/
structure Task6Req where
  messages : Option MessagesVal
  chatId : Option String
  deriving DecidableEq, Repr

/-- The raw body chunks the task-6 loop emits: one per chunk passing the
`if (content)` guard, in upstream order. -/
def chunkEmits (cs : List Chunk) : List Ev :=
  cs.filterMap fun c =>
    if hasContent c then some (Ev.emit (rawContent c)) else none

/-- The `fullResponse` accumulator of the task-6 loop: only chunks passing the
`if (content)` guard are appended. -/
def fullResponse (cs : List Chunk) : String :=
  joinStr ((cs.map rawContent).filter isNonEmpty)

/-- Streaming tail of the task-6 route: the emitted chunks, then on normal
completion the best-effort assistant insert followed by `controller.close()`,
and on a mid-stream error `controller.error(error)` — an abort with no
terminal event and no assistant insert. -/
def task6Stream (cur : String) (env : StoreEnv) (up : UpTrace) : List Ev :=
  chunkEmits up.chunks ++
  (match up.outcome with
   | UpOutcome.ok =>
     [Ev.store (StoreOp.insertMsg cur (fullResponse up.chunks) "assistant" "text" none)
        env.assistantInsertOk,
      Ev.closeStream]
   | UpOutcome.err => [Ev.abortStream])

/-- Task-6 route after the chat identifier is resolved (`pre` holds the chat
creation event, if any): reading `messages[messages.length - 1]` of an empty
array throws and lands in the outer catch; otherwise the user message is
inserted best-effort, the upstream call is made, and the stream runs. -/
def task6WithChat (cur : String) (pre : List Ev) (ms : List ChatMsg)
    (env : StoreEnv) (up : UpTrace) : HandlerResult :=
  match ms.getLast? with
  | none =>
    ⟨500, [], RespBody.errJson "An error occurred while processing your request", pre⟩
  | some last =>
    ⟨200, [("Content-Type", "text/plain"), ("X-Chat-Id", cur)], RespBody.plain,
      pre ++
        [Ev.store (StoreOp.insertMsg cur last.content "user" "text" none) env.userInsertOk,
         Ev.callUpstream] ++ task6Stream cur env up⟩

/-- Chat-creation branch of the task-6 route, taken when `chatId` is falsy:
a failed insert aborts the request with a 500 before anything else. -/
def task6Create (ms : List ChatMsg) (env : StoreEnv) (up : UpTrace) : HandlerResult :=
  if env.chatInsertOk then
    task6WithChat env.newChatId [Ev.store (StoreOp.insertChat env.newChatId) true] ms env up
  else
    ⟨500, [], RespBody.errJson "Failed to create chat",
      [Ev.store (StoreOp.insertChat env.newChatId) false]⟩

/-- The task-6 chat route: `messages` must be an array (`!messages ||
!Array.isArray(messages)`), then the chat identifier is taken from a truthy
`chatId` or a new Chat row is created before the upstream call. -/
def task6Run (req : Task6Req) (env : StoreEnv) (up : UpTrace) : HandlerResult :=
  match req.messages with
  | none => ⟨400, [], RespBody.errJson "Invalid messages format", []⟩
  | some MessagesVal.nonArr => ⟨400, [], RespBody.errJson "Invalid messages format", []⟩
  | some (MessagesVal.arr ms) =>
    match req.chatId with
    | some c => if c = "" then task6Create ms env up else task6WithChat c [] ms env up
    | none => task6Create ms env up

/-! ### The image-generation route (task 3, app/api/generate-image/route.ts) -/

/-- Request body of the image route: `{ prompt, chatId }`. -/
structure ImgReq where
  prompt : Option MsgVal
  chatId : Option String
  deriving DecidableEq, Repr

/-- Outcome of `openai.images.generate`: a response whose `data[0]?.url` may
be absent, or a thrown error. -/
inductive ImgOutcome
  | ok (url : Option String)
  | err
  deriving DecidableEq, Repr

/-- The caption stored with a generated image. -/
def imgCaption (p : String) : String :=
  "Image generated from prompt: \"" ++ p ++ "\""

/-- The image-generation route: validate `prompt` and `chatId` (both rejected
when falsy), best-effort insert the user message, call the provider once; a
thrown provider error or a falsy `response.data[0]?.url` lands in the catch
and returns a 500 with no assistant insert; otherwise the assistant Message
(kind image, carrying the URL) is inserted best-effort and the URL returned. -/
def imageRun (req : ImgReq) (env : StoreEnv) (out : ImgOutcome) : HandlerResult :=
  match truthyString req.prompt with
  | none => ⟨400, [], RespBody.errJson "Invalid prompt", []⟩
  | some p =>
    match req.chatId with
    | none => ⟨400, [], RespBody.errJson "Chat ID is required", []⟩
    | some c =>
      if c = "" then ⟨400, [], RespBody.errJson "Chat ID is required", []⟩
      else
        let userEv := Ev.store (StoreOp.insertMsg c p "user" "image" none) env.userInsertOk
        match out with
        | ImgOutcome.err =>
          ⟨500, [], RespBody.errJson "An error occurred while generating the image",
            [userEv, Ev.callUpstream]⟩
        | ImgOutcome.ok urlOpt =>
          match urlOpt with
          | none =>
            ⟨500, [], RespBody.errJson "An error occurred while generating the image",
              [userEv, Ev.callUpstream]⟩
          | some u =>
            if u = "" then
              ⟨500, [], RespBody.errJson "An error occurred while generating the image",
                [userEv, Ev.callUpstream]⟩
            else
              ⟨200, [], RespBody.imageJson u,
                [userEv, Ev.callUpstream,
                 Ev.store (StoreOp.insertMsg c (imgCaption p) "assistant" "image" (some u))
                   env.assistantInsertOk]⟩

/-! ### The user-friendly error mapper (task 11, lib/error-handler.ts) -/

/-- Whether the pattern occurs at the head of the character list. -/
def leadsWith : List Char → List Char → Bool
  | [], _ => true
  | _ :: _, [] => false
  | p :: ps, c :: cs => p = c && leadsWith ps cs

/-- Whether the pattern occurs anywhere in the character list. -/
def hasSub : List Char → List Char → Bool
  | pat, [] => pat.isEmpty
  | pat, c :: cs => leadsWith pat (c :: cs) || hasSub pat cs

/-- `message.includes(pat)` of JavaScript. -/
def containsSub (s pat : String) : Bool :=
  hasSub pat.data s.data

/-- The five fixed user-facing messages of `getUserFriendlyErrorMessage`. -/
def friendlyUnavailable : String :=
  "The AI service is currently unavailable. Please try again later."

/-- Fixed network-category message. -/
def friendlyNetwork : String :=
  "Network error. Please check your internet connection and try again."

/-- Fixed timeout-category message. -/
def friendlyTimeout : String :=
  "The request timed out. Please try again."

/-- Fixed rate-limited-category message. -/
def friendlyRateLimited : String :=
  "Too many requests. Please wait a moment and try again."

/-- Fixed default message for unknown errors. -/
def friendlyUnknown : String :=
  "Something went wrong. Please try again later."

/-- `getUserFriendlyErrorMessage` of task 11, applied to the technical
message extracted from the error value: first matching substring wins, and
everything else maps to the default message. -/
def getUserFriendlyErrorMessage (message : String) : String :=
  if containsSub message "OpenAI API" then friendlyUnavailable
  else if containsSub message "network" then friendlyNetwork
  else if containsSub message "timeout" then friendlyTimeout
  else if containsSub message "rate limit" then friendlyRateLimited
  else friendlyUnknown

/-! ### The Next.js proxy route (app/src/app/api/chat-text/route.ts) -/

/-- The upstream response the proxy call to `fetch` resolves to: a status code and
the body stream (as opaque chunks). -/
structure UpResp where
  status : Nat
  body : List String
  deriving DecidableEq, Repr

/-- Body of a proxy response: the upstream stream relayed unchanged, or a
JSON object with an `error` field. -/
inductive ProxyBody
  | relayed (chunks : List String)
  | errJson (msg : String)
  deriving DecidableEq, Repr

/-- Result of the proxy route. -/
structure ProxyResult where
  status : Nat
  headers : List (String × String)
  body : ProxyBody
  deriving DecidableEq, Repr

/-- `response.ok` of the Fetch API: status in the inclusive range 200–299. -/
def respOk (status : Nat) : Bool :=
  200 ≤ status && status ≤ 299

/-- Headers the proxy sets on a relayed streaming response. -/
def proxyStreamHeaders : List (String × String) :=
  [("Content-Type", "text/event-stream"),
   ("Cache-Control", "no-cache"),
   ("Connection", "keep-alive"),
   ("Access-Control-Allow-Origin", "*"),
   ("Access-Control-Allow-Methods", "POST, OPTIONS"),
   ("Access-Control-Allow-Headers", "Content-Type")]

/-- The proxy POST handler: on `!response.ok` it throws, landing in the catch
that returns the fixed 500 JSON error; on a 2xx upstream status it returns a
fresh 200 response around the unchanged upstream body. -/
def proxyRun (u : UpResp) : ProxyResult :=
  if respOk u.status then ⟨200, proxyStreamHeaders, ProxyBody.relayed u.body⟩
  else ⟨500, [], ProxyBody.errJson "Internal server error"⟩

/-! ### Concrete values used by witnesses and counterexamples -/

/-- A valid chat-text request carrying the message Hello and no history. -/
def reqHello : ChatTextReq :=
  ⟨some (MsgVal.str "Hello"), []⟩

/-- A successful upstream session with two non-empty chunks and one
content-free chunk. -/
def upHello : UpTrace :=
  ⟨[⟨some "Hi"⟩, ⟨none⟩, ⟨some " there"⟩], UpOutcome.ok⟩

/-- An upstream session that raises after delivering one chunk. -/
def upBroken : UpTrace :=
  ⟨[⟨some "Hel"⟩], UpOutcome.err⟩

/-- A successful upstream session padded with empty and absent contents. -/
def upPad : UpTrace :=
  ⟨[⟨some "a"⟩, ⟨some ""⟩, ⟨none⟩], UpOutcome.ok⟩

/-- A valid task-6 request with one user message and no chat identifier. -/
def req6Hello : Task6Req :=
  ⟨some (MessagesVal.arr [⟨"user", "Hello"⟩]), none⟩

/-- A valid task-6 request reusing an existing chat identifier. -/
def req6Existing : Task6Req :=
  ⟨some (MessagesVal.arr [⟨"user", "Hello"⟩]), some "chat-1"⟩

/-- A store environment in which every insert succeeds. -/
def envAllOk : StoreEnv :=
  ⟨"new-chat-1", true, true, true⟩

/-- A valid image-generation request. -/
def imgReqOk : ImgReq :=
  ⟨some (MsgVal.str "a red bicycle"), some "chat-9"⟩

/-! ### Helper lemmas -/

/-- The truthiness guard on a chunk agrees with non-emptiness of its text. -/
lemma hasContent_eq (c : Chunk) : hasContent c = isNonEmpty (rawContent c) := by
  cases c with
  | mk o => cases o <;> simp [hasContent, rawContent, isNonEmpty]

/-- Appending on the left of the empty string is the identity. -/
lemma strNilAppend (x : String) : "" ++ x = x := by
  cases x
  rfl

/-- Dropping empty strings does not change the concatenation. -/
lemma joinStr_filter (l : List String) :
    joinStr (l.filter isNonEmpty) = joinStr l := by
  induction l with
  | nil => rfl
  | cons s rest ih =>
    by_cases h : s = ""
    · subst h
      simp [List.filter_cons, isNonEmpty, joinStr, ih, strNilAppend]
    · simp [List.filter_cons, isNonEmpty, h, joinStr, ih]

/-- The per-chunk guarded emission is the map of a function over the
non-empty chunk texts, in order. -/
lemma guardFilterMap {α : Type} (f : String → α) :
    ∀ cs : List Chunk,
      (cs.filterMap fun c =>
        if hasContent c then some (f (rawContent c)) else none)
        = ((cs.map rawContent).filter isNonEmpty).map f
  | [] => rfl
  | c :: rest => by
    rw [List.filterMap_cons, List.map_cons, List.filter_cons, hasContent_eq c]
    cases h : isNonEmpty (rawContent c) <;>
      simp [h, guardFilterMap f rest]

/-- The task-6 emissions are the non-empty chunk texts wrapped in `Ev.emit`. -/
lemma chunkEmits_eq (cs : List Chunk) :
    chunkEmits cs = ((cs.map rawContent).filter isNonEmpty).map Ev.emit :=
  guardFilterMap Ev.emit cs

/-- The chat-text event frames are the non-empty chunk texts wrapped in
`SSEvent.content`, followed by the terminal frame. -/
lemma chatTextStream_eq (t : UpTrace) :
    chatTextStream t
      = ((t.chunks.map rawContent).filter isNonEmpty).map SSEvent.content ++
        (match t.outcome with
         | UpOutcome.ok => [SSEvent.done]
         | UpOutcome.err => [SSEvent.error "Streaming failed"]) := by
  unfold chatTextStream
  rw [guardFilterMap]

/-- Content extraction over a mapped content list is the identity. -/
lemma contentsOf_map_content : ∀ l : List String,
    contentsOf (l.map SSEvent.content) = l
  | [] => rfl
  | s :: rest => by
    unfold contentsOf
    rw [List.map_cons, List.filterMap_cons]
    exact congrArg (List.cons s) (contentsOf_map_content rest)

/-- Content extraction distributes over append. -/
lemma contentsOf_append (a b : List SSEvent) :
    contentsOf (a ++ b) = contentsOf a ++ contentsOf b := by
  simp [contentsOf, List.filterMap_append]

/-- Emission extraction over a mapped emit list is the identity. -/
lemma emitsOf_map_emit : ∀ l : List String,
    emitsOf (l.map Ev.emit) = l
  | [] => rfl
  | s :: rest => by
    unfold emitsOf
    rw [List.map_cons, List.filterMap_cons]
    exact congrArg (List.cons s) (emitsOf_map_emit rest)

/-- Emission extraction distributes over append. -/
lemma emitsOf_append (a b : List Ev) :
    emitsOf (a ++ b) = emitsOf a ++ emitsOf b := by
  simp [emitsOf, List.filterMap_append]

/-- Store-attempt extraction distributes over append. -/
lemma storeOps_append (a b : List Ev) :
    storeOps (a ++ b) = storeOps a ++ storeOps b := by
  simp [storeOps, List.filterMap_append]

/-- Created-row extraction distributes over append. -/
lemma createdRows_append (a b : List Ev) :
    createdRows (a ++ b) = createdRows a ++ createdRows b := by
  simp [createdRows, List.filterMap_append]

/-- Raw body emissions carry no store operation. -/
lemma storeOps_chunkEmits (cs : List Chunk) : storeOps (chunkEmits cs) = [] := by
  rw [chunkEmits_eq, storeOps, List.filterMap_map]
  exact List.filterMap_eq_nil_iff.mpr fun a _ => rfl

/-- Raw body emissions create no row. -/
lemma createdRows_chunkEmits (cs : List Chunk) : createdRows (chunkEmits cs) = [] := by
  rw [chunkEmits_eq, createdRows, List.filterMap_map]
  exact List.filterMap_eq_nil_iff.mpr fun a _ => rfl

/-- Server-sent events carry no store operation. -/
lemma storeOps_map_emitEvent (es : List SSEvent) :
    storeOps (es.map Ev.emitEvent) = [] := by
  rw [storeOps, List.filterMap_map]
  exact List.filterMap_eq_nil_iff.mpr fun a _ => rfl

/-- The chat-text handler trace contains no store operation at all. -/
lemma storeOps_chatTextEvents (t : UpTrace) :
    storeOps (chatTextEvents t) = [] := by
  unfold chatTextEvents
  rw [storeOps_append, storeOps_append, storeOps_map_emitEvent]
  rfl

/-- The chat-text handler performs no store write on any input. -/
lemma storeOps_chatTextRun (req : ChatTextReq) (key : Option String) (up : UpTrace) :
    storeOps (chatTextRun req key up).trace = [] := by
  unfold chatTextRun
  cases truthyString req.message with
  | none => rfl
  | some m =>
    cases key with
    | none => rfl
    | some k => exact storeOps_chatTextEvents up

/-- Store attempts of the task-6 streaming tail: the assistant insert on
normal completion, nothing on an abort. -/
lemma storeOps_task6Stream (cur : String) (env : StoreEnv) (up : UpTrace) :
    storeOps (task6Stream cur env up)
      = match up.outcome with
        | UpOutcome.ok =>
          [StoreOp.insertMsg cur (fullResponse up.chunks) "assistant" "text" none]
        | UpOutcome.err => [] := by
  unfold task6Stream
  rw [storeOps_append, storeOps_chunkEmits]
  cases up.outcome <;> rfl

/-- Created rows of the task-6 streaming tail. -/
lemma createdRows_task6Stream (cur : String) (env : StoreEnv) (up : UpTrace) :
    createdRows (task6Stream cur env up)
      = match up.outcome with
        | UpOutcome.ok =>
          if env.assistantInsertOk then
            [StoreOp.insertMsg cur (fullResponse up.chunks) "assistant" "text" none]
          else []
        | UpOutcome.err => [] := by
  unfold task6Stream
  rw [createdRows_append, createdRows_chunkEmits]
  cases up.outcome with
  | ok =>
    cases h : env.assistantInsertOk <;>
      simp [createdRows, List.filterMap_cons, h]
  | err => rfl

/-- Body emissions of the task-6 streaming tail: exactly the non-empty chunk
texts, in upstream order, on both outcomes. -/
lemma emitsOf_task6Stream (cur : String) (env : StoreEnv) (up : UpTrace) :
    emitsOf (task6Stream cur env up)
      = (up.chunks.map rawContent).filter isNonEmpty := by
  unfold task6Stream
  rw [emitsOf_append, chunkEmits_eq, emitsOf_map_emit]
  cases up.outcome <;> simp [emitsOf, List.filterMap_cons]

/-- Content frames of the chat-text stream: exactly the non-empty chunk
texts, in upstream order, on both outcomes. -/
lemma contentsOf_chatTextStream (up : UpTrace) :
    contentsOf (chatTextStream up)
      = (up.chunks.map rawContent).filter isNonEmpty := by
  rw [chatTextStream_eq, contentsOf_append, contentsOf_map_content]
  cases up.outcome <;> simp [contentsOf, List.filterMap_cons]

/-- The task-6 route on a valid request with no chat identifier and a
successful chat insert: the full result shape. -/
lemma task6Run_create (ms : List ChatMsg) (m : ChatMsg) (req6 : Task6Req)
    (env : StoreEnv) (up : UpTrace)
    (hm : req6.messages = some (MessagesVal.arr ms))
    (hchat : req6.chatId = none)
    (hok : env.chatInsertOk = true)
    (hlast : ms.getLast? = some m) :
    task6Run req6 env up
      = ⟨200, [("Content-Type", "text/plain"), ("X-Chat-Id", env.newChatId)],
          RespBody.plain,
          [Ev.store (StoreOp.insertChat env.newChatId) true] ++
            [Ev.store (StoreOp.insertMsg env.newChatId m.content "user" "text" none)
               env.userInsertOk,
             Ev.callUpstream] ++ task6Stream env.newChatId env up⟩ := by
  have h1 : task6Run req6 env up = task6Create ms env up := by
    unfold task6Run
    rw [hm, hchat]
  have h2 : task6Create ms env up
      = task6WithChat env.newChatId
          [Ev.store (StoreOp.insertChat env.newChatId) true] ms env up := by
    unfold task6Create
    rw [hok]
    simp
  rw [h1, h2]
  unfold task6WithChat
  rw [hlast]

/-- The task-6 route on a valid request reusing a non-empty chat identifier:
the full result shape. -/
lemma task6Run_reuse (ms : List ChatMsg) (m : ChatMsg) (c : String)
    (req6 : Task6Req) (env : StoreEnv) (up : UpTrace)
    (hm : req6.messages = some (MessagesVal.arr ms))
    (hchat : req6.chatId = some c)
    (hc : c ≠ "")
    (hlast : ms.getLast? = some m) :
    task6Run req6 env up
      = ⟨200, [("Content-Type", "text/plain"), ("X-Chat-Id", c)],
          RespBody.plain,
          [] ++
            [Ev.store (StoreOp.insertMsg c m.content "user" "text" none)
               env.userInsertOk,
             Ev.callUpstream] ++ task6Stream c env up⟩ := by
  have h1 : task6Run req6 env up = task6WithChat c [] ms env up := by
    unfold task6Run
    rw [hm, hchat]
    simp [hc]
  rw [h1]
  unfold task6WithChat
  rw [hlast]

/-- Assistant-row extraction distributes over append. -/
lemma assistantOps_append (a b : List Ev) :
    assistantOps (a ++ b) = assistantOps a ++ assistantOps b := by
  unfold assistantOps
  rw [storeOps_append, List.filter_append]

/-- The task-6 streaming tail on an upstream error: raw emissions then the
abort, with no store attempt. -/
lemma task6Stream_err (cur : String) (env : StoreEnv) (up : UpTrace)
    (h : up.outcome = UpOutcome.err) :
    task6Stream cur env up = chunkEmits up.chunks ++ [Ev.abortStream] := by
  unfold task6Stream
  rw [h]

/-- The task-6 streaming tail on normal completion: raw emissions, the
best-effort assistant insert, then the clean close. -/
lemma task6Stream_ok (cur : String) (env : StoreEnv) (up : UpTrace)
    (h : up.outcome = UpOutcome.ok) :
    task6Stream cur env up
      = chunkEmits up.chunks ++
        [Ev.store (StoreOp.insertMsg cur (fullResponse up.chunks) "assistant" "text" none)
           env.assistantInsertOk,
         Ev.closeStream] := by
  unfold task6Stream
  rw [h]

/-- An aborted streaming tail attempts no assistant insert. -/
lemma assistantOps_task6Stream_err (cur : String) (env : StoreEnv) (up : UpTrace)
    (h : up.outcome = UpOutcome.err) :
    assistantOps (task6Stream cur env up) = [] := by
  unfold assistantOps
  rw [storeOps_task6Stream, h]
  rfl

/-- The user-insert and upstream-call prefix contains no assistant insert. -/
lemma assistantOps_userCall (cur content : String) (ok : Bool) :
    assistantOps
      [Ev.store (StoreOp.insertMsg cur content "user" "text" none) ok,
       Ev.callUpstream] = [] := by
  simp [assistantOps, storeOps, List.filterMap_cons, isAssistantOp]

/-- Raw body emissions contain no assistant insert. -/
lemma assistantOps_chunkEmits (cs : List Chunk) :
    assistantOps (chunkEmits cs) = [] := by
  unfold assistantOps
  rw [storeOps_chunkEmits]
  rfl

/-- Branch equation of `task6WithChat` for an empty messages array. -/
lemma task6WithChat_none (cur : String) (pre : List Ev) (ms : List ChatMsg)
    (env : StoreEnv) (up : UpTrace) (hl : ms.getLast? = none) :
    task6WithChat cur pre ms env up
      = ⟨500, [], RespBody.errJson "An error occurred while processing your request",
          pre⟩ := by
  unfold task6WithChat
  rw [hl]

/-- Branch equation of `task6WithChat` for a non-empty messages array. -/
lemma task6WithChat_some (cur : String) (pre : List Ev) (ms : List ChatMsg)
    (env : StoreEnv) (up : UpTrace) (last : ChatMsg)
    (hl : ms.getLast? = some last) :
    task6WithChat cur pre ms env up
      = ⟨200, [("Content-Type", "text/plain"), ("X-Chat-Id", cur)], RespBody.plain,
          pre ++
            [Ev.store (StoreOp.insertMsg cur last.content "user" "text" none)
               env.userInsertOk,
             Ev.callUpstream] ++ task6Stream cur env up⟩ := by
  unfold task6WithChat
  rw [hl]

/-- On an upstream error the task-6 route attempts no assistant insert, and
whenever it reached the upstream call its body stream ends in the abort. -/
lemma task6_err_behaviour (req6 : Task6Req) (env : StoreEnv) (up : UpTrace)
    (h : up.outcome = UpOutcome.err) :
    assistantOps (task6Run req6 env up).trace = []
      ∧ (Ev.callUpstream ∈ (task6Run req6 env up).trace →
          (task6Run req6 env up).trace.getLast? = some Ev.abortStream) := by
  have core : ∀ (cur : String) (pre : List Ev) (ms : List ChatMsg),
      assistantOps pre = [] → Ev.callUpstream ∉ pre →
        assistantOps (task6WithChat cur pre ms env up).trace = []
          ∧ (Ev.callUpstream ∈ (task6WithChat cur pre ms env up).trace →
              (task6WithChat cur pre ms env up).trace.getLast? = some Ev.abortStream) := by
    intro cur pre ms hpre hpre2
    cases hl : ms.getLast? with
    | none =>
      rw [task6WithChat_none cur pre ms env up hl]
      exact ⟨hpre, fun hmem => absurd hmem hpre2⟩
    | some last =>
      rw [task6WithChat_some cur pre ms env up last hl]
      constructor
      · rw [assistantOps_append, assistantOps_append, hpre,
          assistantOps_userCall, assistantOps_task6Stream_err cur env up h]
        rfl
      · intro _
        rw [task6Stream_err cur env up h,
          show ∀ a b c : List Ev, (a ++ b) ++ (c ++ [Ev.abortStream])
              = ((a ++ b) ++ c) ++ [Ev.abortStream] from
            fun a b c => (List.append_assoc _ _ _).symm,
          List.getLast?_concat]
  unfold task6Run
  cases hm : req6.messages with
  | none => exact ⟨rfl, fun hmem => absurd hmem (by simp)⟩
  | some mv =>
    cases mv with
    | nonArr => exact ⟨rfl, fun hmem => absurd hmem (by simp)⟩
    | arr ms =>
      have hcreate :
          assistantOps (task6Create ms env up).trace = []
            ∧ (Ev.callUpstream ∈ (task6Create ms env up).trace →
                (task6Create ms env up).trace.getLast? = some Ev.abortStream) := by
        unfold task6Create
        cases hok : env.chatInsertOk with
        | false =>
          refine ⟨?_, fun hmem => absurd hmem (by simp)⟩
          simp [assistantOps, storeOps, List.filterMap_cons, isAssistantOp]
        | true =>
          exact core env.newChatId [Ev.store (StoreOp.insertChat env.newChatId) true] ms
            (by simp [assistantOps, storeOps, List.filterMap_cons, isAssistantOp])
            (by simp)
      cases hc : req6.chatId with
      | none => exact hcreate
      | some c =>
        by_cases hce : c = ""
        · simp only [hce, if_pos rfl]
          exact hcreate
        · simp only [if_neg hce]
          exact core c [] ms rfl (by simp)

/-- The number of non-empty chunk texts is the number of chunks passing the
truthiness guard. -/
lemma length_filter_countP (cs : List Chunk) :
    ((cs.map rawContent).filter isNonEmpty).length = cs.countP hasContent := by
  rw [← List.countP_eq_length_filter, List.countP_map]
  have he : isNonEmpty ∘ rawContent = hasContent :=
    funext fun c => (hasContent_eq c).symm
  rw [he]

/-- On normal completion the task-6 streaming tail attempts exactly the
assistant insert of the accumulated response. -/
lemma assistantOps_task6Stream_ok (cur : String) (env : StoreEnv) (up : UpTrace)
    (h : up.outcome = UpOutcome.ok) :
    assistantOps (task6Stream cur env up)
      = [StoreOp.insertMsg cur (fullResponse up.chunks) "assistant" "text" none] := by
  unfold assistantOps
  rw [storeOps_task6Stream, h]
  simp [isAssistantOp]

/-! ### Claim theorems -/

/-- C4: on every fully-successful streaming turn the chat-text response body
is the sequence of per-chunk `data: <json with a content field>` frames (one
per non-empty chunk, in order) followed by exactly one terminal
`data: done` frame, and the concatenation of the forwarded `content` fields
equals the concatenation of all upstream chunk contents, i.e. the full model
reply. -/
theorem c4_success_framing (up : UpTrace) (h : up.outcome = UpOutcome.ok) :
    chatTextStream up
        = ((up.chunks.map rawContent).filter isNonEmpty).map SSEvent.content
          ++ [SSEvent.done]
      ∧ (chatTextStream up).count SSEvent.done = 1
      ∧ joinStr (contentsOf (chatTextStream up))
          = joinStr (up.chunks.map rawContent) := by
  have hstream : chatTextStream up
      = ((up.chunks.map rawContent).filter isNonEmpty).map SSEvent.content
        ++ [SSEvent.done] := by
    rw [chatTextStream_eq, h]
  refine ⟨hstream, ?_, ?_⟩
  · rw [hstream, List.count_append]
    have h0 : List.count SSEvent.done
        (((up.chunks.map rawContent).filter isNonEmpty).map SSEvent.content) = 0 := by
      rw [List.count_eq_zero]
      intro hmem
      rcases List.mem_map.mp hmem with ⟨s, _, hs⟩
      simp at hs
    rw [h0]
    simp
  · rw [contentsOf_chatTextStream, joinStr_filter]

/-- C4 witness: the framing theorem applied to a concrete successful
three-chunk session. -/
theorem c4_witness :
    chatTextStream upHello
        = ((upHello.chunks.map rawContent).filter isNonEmpty).map SSEvent.content
          ++ [SSEvent.done]
      ∧ (chatTextStream upHello).count SSEvent.done = 1
      ∧ joinStr (contentsOf (chatTextStream upHello))
          = joinStr (upHello.chunks.map rawContent) :=
  c4_success_framing upHello rfl

/-- C9: the chat-text relay emits no client event for a chunk whose content
is absent or empty, so the number of client-visible content events equals the
number of upstream chunks with non-empty content, and there are sessions
where this is strictly fewer than the total number of chunks. -/
theorem c9_empty_chunks_skipped :
    (∀ up : UpTrace,
        (contentsOf (chatTextStream up)).length = up.chunks.countP hasContent)
      ∧ ∃ t : UpTrace,
          (contentsOf (chatTextStream t)).length < t.chunks.length := by
  constructor
  · intro up
    rw [contentsOf_chatTextStream, length_filter_countP]
  · exact ⟨⟨[⟨none⟩], UpOutcome.ok⟩, by decide⟩

/-- C10: the Next.js proxy route collapses every non-2xx upstream response
into a fixed 500 JSON error, discarding the upstream status and detail, and
relays the upstream body unchanged exactly when the upstream status is 2xx. -/
theorem c10_proxy_error_collapse (u : UpResp) :
    (respOk u.status = false →
        proxyRun u = ⟨500, [], ProxyBody.errJson "Internal server error"⟩)
      ∧ (respOk u.status = true →
        proxyRun u = ⟨200, proxyStreamHeaders, ProxyBody.relayed u.body⟩)
      ∧ (respOk u.status = true ↔ 200 ≤ u.status ∧ u.status ≤ 299) := by
  refine ⟨?_, ?_, ?_⟩
  · intro h
    simp [proxyRun, h]
  · intro h
    simp [proxyRun, h]
  · simp [respOk, Bool.and_eq_true, decide_eq_true_eq]

/-- C10 witness: a 404 upstream response is collapsed to the fixed 500 error
and a 200 upstream response is relayed unchanged. -/
theorem c10_witness :
    proxyRun ⟨404, ["oops"]⟩ = ⟨500, [], ProxyBody.errJson "Internal server error"⟩
      ∧ proxyRun ⟨200, ["data"]⟩
          = ⟨200, proxyStreamHeaders, ProxyBody.relayed ["data"]⟩ :=
  ⟨(c10_proxy_error_collapse ⟨404, ["oops"]⟩).1 (by decide),
   (c10_proxy_error_collapse ⟨200, ["data"]⟩).2.1 (by decide)⟩

/-- C5 counterexample: the claim that each upstream chunk is forwarded as
exactly one client event fails at a concrete session containing an
empty-content and an absent-content chunk — three chunks produce one event,
because the `if (content)` guard skips falsy contents. -/
theorem c5_counterexample :
    (contentsOf (chatTextStream upPad)).length ≠ upPad.chunks.length
      ∧ contentsOf (chatTextStream upPad) = ["a"]
      ∧ upPad.chunks.length = 3 := by
  decide

/-- C5 as amended: every chunk with non-empty content is forwarded as exactly
one client event, in the exact order received, with no batching or
coalescing — the forwarded sequence is the in-order sublist of non-empty
chunk texts, its length is the number of guard-passing chunks, and in the
task-6 relay each forwarded chunk is also appended to the in-memory
accumulator, whose final value is persisted on normal completion; chunks
with absent or empty content produce no event. -/
theorem c5_per_chunk_forwarding
    (up : UpTrace) (cid : String) (ms : List ChatMsg) (m : ChatMsg)
    (req6 : Task6Req) (env : StoreEnv)
    (hm : req6.messages = some (MessagesVal.arr ms))
    (hchat : req6.chatId = some cid) (hcid : cid ≠ "")
    (hlast : ms.getLast? = some m) :
    contentsOf (chatTextStream up)
        = (up.chunks.map rawContent).filter isNonEmpty
      ∧ emitsOf (task6Run req6 env up).trace
          = (up.chunks.map rawContent).filter isNonEmpty
      ∧ ((up.chunks.map rawContent).filter isNonEmpty).length
          = up.chunks.countP hasContent
      ∧ List.Sublist ((up.chunks.map rawContent).filter isNonEmpty)
          (up.chunks.map rawContent)
      ∧ (up.outcome = UpOutcome.ok →
          assistantTexts (task6Run req6 env up).trace
            = [joinStr ((up.chunks.map rawContent).filter isNonEmpty)]) := by
  refine ⟨contentsOf_chatTextStream up, ?_, length_filter_countP up.chunks,
    List.filter_sublist _, ?_⟩
  · rw [task6Run_reuse ms m cid req6 env up hm hchat hcid hlast]
    show emitsOf ([] ++ _ ++ task6Stream cid env up) = _
    rw [emitsOf_append, emitsOf_append, emitsOf_task6Stream]
    rfl
  · intro hok
    rw [task6Run_reuse ms m cid req6 env up hm hchat hcid hlast]
    show assistantTexts ([] ++ _ ++ task6Stream cid env up) = _
    unfold assistantTexts
    rw [assistantOps_append, assistantOps_append, assistantOps_userCall,
      assistantOps_task6Stream_ok cid env up hok]
    rfl

/-- C5 witness: the amended per-chunk forwarding theorem applied to a
concrete session and a concrete valid task-6 request. -/
theorem c5_witness :
    contentsOf (chatTextStream upHello)
        = (upHello.chunks.map rawContent).filter isNonEmpty
      ∧ emitsOf (task6Run req6Existing envAllOk upHello).trace
          = (upHello.chunks.map rawContent).filter isNonEmpty
      ∧ ((upHello.chunks.map rawContent).filter isNonEmpty).length
          = upHello.chunks.countP hasContent
      ∧ List.Sublist ((upHello.chunks.map rawContent).filter isNonEmpty)
          (upHello.chunks.map rawContent)
      ∧ (upHello.outcome = UpOutcome.ok →
          assistantTexts (task6Run req6Existing envAllOk upHello).trace
            = [joinStr ((upHello.chunks.map rawContent).filter isNonEmpty)]) :=
  c5_per_chunk_forwarding upHello "chat-1" [⟨"user", "Hello"⟩] ⟨"user", "Hello"⟩
    req6Existing envAllOk rfl rfl (by decide) rfl

/-- C8: the user-facing message produced by the error mapper is always one of
the five fixed friendly categories, selected by substring of the technical
message with first match winning, and the unknown category is the default
for every other input. -/
theorem c8_friendly_error_categories (m : String) :
    (getUserFriendlyErrorMessage m = friendlyUnavailable
        ∨ getUserFriendlyErrorMessage m = friendlyNetwork
        ∨ getUserFriendlyErrorMessage m = friendlyTimeout
        ∨ getUserFriendlyErrorMessage m = friendlyRateLimited
        ∨ getUserFriendlyErrorMessage m = friendlyUnknown)
      ∧ (containsSub m "OpenAI API" = true →
          getUserFriendlyErrorMessage m = friendlyUnavailable)
      ∧ (containsSub m "OpenAI API" = false → containsSub m "network" = true →
          getUserFriendlyErrorMessage m = friendlyNetwork)
      ∧ (containsSub m "OpenAI API" = false → containsSub m "network" = false →
          containsSub m "timeout" = true →
          getUserFriendlyErrorMessage m = friendlyTimeout)
      ∧ (containsSub m "OpenAI API" = false → containsSub m "network" = false →
          containsSub m "timeout" = false → containsSub m "rate limit" = true →
          getUserFriendlyErrorMessage m = friendlyRateLimited)
      ∧ (containsSub m "OpenAI API" = false → containsSub m "network" = false →
          containsSub m "timeout" = false → containsSub m "rate limit" = false →
          getUserFriendlyErrorMessage m = friendlyUnknown) := by
  unfold getUserFriendlyErrorMessage
  cases h1 : containsSub m "OpenAI API" <;>
    cases h2 : containsSub m "network" <;>
      cases h3 : containsSub m "timeout" <;>
        cases h4 : containsSub m "rate limit" <;>
          simp [h1, h2, h3, h4]

/-- C8 witness: an unrecognised technical message maps to the default
category and a rate-limit message maps to the rate-limited category. -/
theorem c8_witness :
    getUserFriendlyErrorMessage "boom" = friendlyUnknown
      ∧ getUserFriendlyErrorMessage "hit the rate limit" = friendlyRateLimited :=
  ⟨(c8_friendly_error_categories "boom").2.2.2.2.2
      (by decide) (by decide) (by decide) (by decide),
   (c8_friendly_error_categories "hit the rate limit").2.2.2.2.1
      (by decide) (by decide) (by decide) (by decide)⟩

/-- C1 counterexample: on an upstream error after one forwarded chunk, the
task-6 relay cited by the claim does not emit a terminal error event and does
not close the stream — its trace ends in the `controller.error` abort, it
contains no clean close, and it contains no event frame at all. -/
theorem c1_counterexample :
    (task6Run req6Existing envAllOk upBroken).trace.getLast? = some Ev.abortStream
      ∧ Ev.closeStream ∉ (task6Run req6Existing envAllOk upBroken).trace
      ∧ (task6Run req6Existing envAllOk upBroken).trace.countP
          (fun e => match e with | Ev.emitEvent _ => true | _ => false) = 0 := by
  decide

/-- C1 as amended: on an upstream error after any number of forwarded chunks,
the chat-text relay ends its event stream with the terminal error frame (its
last frame is the error frame, never the success frame), closes the client
stream cleanly, and persists nothing; the task-6 relay persists no assistant
Message row for the turn but signals the failure by aborting the client
stream rather than emitting a terminal error event. -/
theorem c1_error_terminality
    (req : ChatTextReq) (key : Option String) (req6 : Task6Req)
    (env : StoreEnv) (up : UpTrace) (h : up.outcome = UpOutcome.err) :
    (chatTextStream up).getLast? = some (SSEvent.error "Streaming failed")
      ∧ SSEvent.done ∉ chatTextStream up
      ∧ storeOps (chatTextRun req key up).trace = []
      ∧ (Ev.callUpstream ∈ (chatTextRun req key up).trace →
          (chatTextRun req key up).trace.getLast? = some Ev.closeStream)
      ∧ assistantOps (task6Run req6 env up).trace = []
      ∧ (Ev.callUpstream ∈ (task6Run req6 env up).trace →
          (task6Run req6 env up).trace.getLast? = some Ev.abortStream) := by
  have hstream : chatTextStream up
      = ((up.chunks.map rawContent).filter isNonEmpty).map SSEvent.content
        ++ [SSEvent.error "Streaming failed"] := by
    rw [chatTextStream_eq, h]
  refine ⟨?_, ?_, storeOps_chatTextRun req key up, ?_,
    (task6_err_behaviour req6 env up h).1, (task6_err_behaviour req6 env up h).2⟩
  · rw [hstream, List.getLast?_concat]
  · rw [hstream]
    intro hmem
    rcases List.mem_append.mp hmem with hin | hin
    · rcases List.mem_map.mp hin with ⟨s, _, hs⟩
      simp at hs
    · simp at hin
  · unfold chatTextRun
    cases hv : truthyString req.message with
    | none =>
      intro hmem
      simp at hmem
    | some mm =>
      cases key with
      | none =>
        intro hmem
        simp at hmem
      | some k =>
        intro _
        show (chatTextEvents up).getLast? = some Ev.closeStream
        unfold chatTextEvents
        rw [List.getLast?_concat]

/-- C1 witness: the error-path theorem applied to a concrete session that
raises after one chunk, with concrete valid requests on both relays. -/
theorem c1_witness :
    (chatTextStream upBroken).getLast? = some (SSEvent.error "Streaming failed")
      ∧ SSEvent.done ∉ chatTextStream upBroken
      ∧ storeOps (chatTextRun reqHello (some "key") upBroken).trace = []
      ∧ (Ev.callUpstream ∈ (chatTextRun reqHello (some "key") upBroken).trace →
          (chatTextRun reqHello (some "key") upBroken).trace.getLast?
            = some Ev.closeStream)
      ∧ assistantOps (task6Run req6Existing envAllOk upBroken).trace = []
      ∧ (Ev.callUpstream ∈ (task6Run req6Existing envAllOk upBroken).trace →
          (task6Run req6Existing envAllOk upBroken).trace.getLast?
            = some Ev.abortStream) :=
  c1_error_terminality reqHello (some "key") req6Existing envAllOk upBroken rfl

/-- C2 counterexample: the chat-text relay cited by the claim performs no
store write at all on a fully-successful turn — in particular it creates no
user Message row, contradicting the claimed exactly-one user row. -/
theorem c2_counterexample :
    upHello.outcome = UpOutcome.ok
      ∧ (chatTextRun reqHello (some "key") upHello).status = 200
      ∧ createdRows (chatTextRun reqHello (some "key") upHello).trace = []
      ∧ (storeOps (chatTextRun reqHello (some "key") upHello).trace).countP
          isUserOp = 0 := by
  decide

/-- C2 as amended: on every fully-successful streaming turn through the
task-6 relay (the persistence-bearing relay) with a working store, the rows
created are exactly one Chat row when no chatId was supplied (zero when a
non-empty chatId is reused), exactly one user Message row, and exactly one
complete assistant Message row whose content is the concatenation of all
upstream chunk contents — never a partial row; the chat-text edge function
cited by the claim performs no store write at all. -/
theorem c2_success_rows
    (ms : List ChatMsg) (m : ChatMsg) (req6 : Task6Req) (env : StoreEnv)
    (up : UpTrace) (reqct : ChatTextReq) (key : Option String)
    (hm : req6.messages = some (MessagesVal.arr ms))
    (hchat : req6.chatId = none)
    (hlast : ms.getLast? = some m)
    (h1 : env.chatInsertOk = true) (h2 : env.userInsertOk = true)
    (h3 : env.assistantInsertOk = true)
    (hup : up.outcome = UpOutcome.ok) :
    createdRows (task6Run req6 env up).trace
        = [StoreOp.insertChat env.newChatId,
           StoreOp.insertMsg env.newChatId m.content "user" "text" none,
           StoreOp.insertMsg env.newChatId (joinStr (up.chunks.map rawContent))
             "assistant" "text" none]
      ∧ (task6Run req6 env up).status = 200
      ∧ (∀ c : String, c ≠ "" →
          createdRows (task6Run { req6 with chatId := some c } env up).trace
            = [StoreOp.insertMsg c m.content "user" "text" none,
               StoreOp.insertMsg c (joinStr (up.chunks.map rawContent))
                 "assistant" "text" none])
      ∧ storeOps (chatTextRun reqct key up).trace = [] := by
  have hfull : fullResponse up.chunks = joinStr (up.chunks.map rawContent) :=
    joinStr_filter (up.chunks.map rawContent)
  refine ⟨?_, ?_, ?_, storeOps_chatTextRun reqct key up⟩
  · rw [task6Run_create ms m req6 env up hm hchat h1 hlast]
    show createdRows (_ ++ _ ++ task6Stream env.newChatId env up) = _
    rw [createdRows_append, createdRows_append, createdRows_task6Stream, hup,
      h2, h3, hfull]
    simp [createdRows, List.filterMap_cons]
  · rw [task6Run_create ms m req6 env up hm hchat h1 hlast]
  · intro c hc
    rw [task6Run_reuse ms m c { req6 with chatId := some c } env up
      (by exact hm) rfl hc hlast]
    show createdRows (_ ++ _ ++ task6Stream c env up) = _
    rw [createdRows_append, createdRows_append, createdRows_task6Stream, hup,
      h2, h3, hfull]
    simp [createdRows, List.filterMap_cons]

/-- C2 witness: the side-effect theorem applied to a concrete valid request
with no chatId, an all-successful store, and a concrete successful session,
with the reuse conjunct instantiated at a concrete chat identifier. -/
theorem c2_witness :
    createdRows (task6Run req6Hello envAllOk upHello).trace
        = [StoreOp.insertChat envAllOk.newChatId,
           StoreOp.insertMsg envAllOk.newChatId "Hello" "user" "text" none,
           StoreOp.insertMsg envAllOk.newChatId
             (joinStr (upHello.chunks.map rawContent)) "assistant" "text" none]
      ∧ (task6Run req6Hello envAllOk upHello).status = 200
      ∧ createdRows (task6Run { req6Hello with chatId := some "chat-7" }
            envAllOk upHello).trace
          = [StoreOp.insertMsg "chat-7" "Hello" "user" "text" none,
             StoreOp.insertMsg "chat-7"
               (joinStr (upHello.chunks.map rawContent)) "assistant" "text" none]
      ∧ storeOps (chatTextRun reqHello (some "key") upHello).trace = [] := by
  have h := c2_success_rows [⟨"user", "Hello"⟩] ⟨"user", "Hello"⟩ req6Hello
    envAllOk upHello reqHello (some "key") rfl rfl rfl rfl rfl rfl rfl
  exact ⟨h.1, h.2.1, h.2.2.1 "chat-7" (by decide), h.2.2.2⟩

/-- C3 counterexample: the chat-text edge function, whose requests carry no
chatId at all, answers a fully-successful turn with headers that contain no
chat-identifier header and with no Chat row created — contradicting the
claim that every relay request omitting chatId yields a Chat created before
streaming and its identifier in a response header. -/
theorem c3_counterexample :
    "X-Chat-Id" ∉ (chatTextRun reqHello (some "key") upHello).headers.map Prod.fst
      ∧ storeOps (chatTextRun reqHello (some "key") upHello).trace = []
      ∧ (chatTextRun reqHello (some "key") upHello).status = 200 := by
  decide

/-- C3 as amended: for every task-6 request that omits chatId (with a working
chat insert), the new Chat row is created as the very first externally
visible event — before the upstream call and before any body emission — and
the new identifier is returned out-of-band in the X-Chat-Id response header,
which as an HTTP header precedes the first body byte; the chat-text edge
function, by contrast, creates no Chat and returns no chat-id header. -/
theorem c3_chat_id_header
    (ms : List ChatMsg) (m : ChatMsg) (req6 : Task6Req) (env : StoreEnv)
    (up : UpTrace) (reqct : ChatTextReq) (key : Option String)
    (hm : req6.messages = some (MessagesVal.arr ms))
    (hchat : req6.chatId = none)
    (hok : env.chatInsertOk = true)
    (hlast : ms.getLast? = some m) :
    (task6Run req6 env up).trace.head?
        = some (Ev.store (StoreOp.insertChat env.newChatId) true)
      ∧ ("X-Chat-Id", env.newChatId) ∈ (task6Run req6 env up).headers
      ∧ Ev.callUpstream ∈ (task6Run req6 env up).trace
      ∧ "X-Chat-Id" ∉ (chatTextRun reqct key up).headers.map Prod.fst
      ∧ storeOps (chatTextRun reqct key up).trace = [] := by
  rw [task6Run_create ms m req6 env up hm hchat hok hlast]
  refine ⟨rfl, by simp, ?_, ?_, storeOps_chatTextRun reqct key up⟩
  · show Ev.callUpstream ∈ _ ++ _ ++ task6Stream env.newChatId env up
    simp [List.mem_append]
  · unfold chatTextRun
    cases truthyString reqct.message with
    | none =>
      show "X-Chat-Id" ∉ corsJsonHeaders.map Prod.fst
      decide
    | some mm =>
      cases key with
      | none =>
        show "X-Chat-Id" ∉ corsJsonHeaders.map Prod.fst
        decide
      | some k =>
        show "X-Chat-Id" ∉ chatTextStreamHeaders.map Prod.fst
        decide

/-- C3 witness: the chat-creation theorem applied to a concrete valid request
with no chatId and a concrete session. -/
theorem c3_witness :
    (task6Run req6Hello envAllOk upHello).trace.head?
        = some (Ev.store (StoreOp.insertChat envAllOk.newChatId) true)
      ∧ ("X-Chat-Id", envAllOk.newChatId) ∈ (task6Run req6Hello envAllOk upHello).headers
      ∧ Ev.callUpstream ∈ (task6Run req6Hello envAllOk upHello).trace
      ∧ "X-Chat-Id" ∉ (chatTextRun reqHello (some "key") upHello).headers.map Prod.fst
      ∧ storeOps (chatTextRun reqHello (some "key") upHello).trace = [] :=
  c3_chat_id_header [⟨"user", "Hello"⟩] ⟨"user", "Hello"⟩ req6Hello envAllOk
    upHello reqHello (some "key") rfl rfl rfl rfl

/-- C6: a request whose message field is missing, empty, or not a string is
rejected with a 400 before the upstream provider is called and before any
store write is attempted, in both the chat-text function (message field) and
the task-6 route (messages field missing or not an array). -/
theorem c6_validation_first
    (req : ChatTextReq) (key : Option String) (up : UpTrace)
    (req6 : Task6Req) (env : StoreEnv)
    (hbad : req.message = none ∨ req.message = some MsgVal.nonStr
        ∨ req.message = some (MsgVal.str ""))
    (hbad6 : req6.messages = none ∨ req6.messages = some MessagesVal.nonArr) :
    (chatTextRun req key up).status = 400
      ∧ Ev.callUpstream ∉ (chatTextRun req key up).trace
      ∧ storeOps (chatTextRun req key up).trace = []
      ∧ (task6Run req6 env up).status = 400
      ∧ Ev.callUpstream ∉ (task6Run req6 env up).trace
      ∧ storeOps (task6Run req6 env up).trace = [] := by
  have hv : truthyString req.message = none := by
    rcases hbad with h | h | h <;> simp [truthyString, h]
  have hrun : chatTextRun req key up
      = ⟨400, corsJsonHeaders,
          RespBody.errJson "Message is required and must be a string", []⟩ := by
    unfold chatTextRun
    rw [hv]
  have hrun6 : task6Run req6 env up
      = ⟨400, [], RespBody.errJson "Invalid messages format", []⟩ := by
    rcases hbad6 with h6 | h6 <;> (unfold task6Run; rw [h6])
  rw [hrun, hrun6]
  exact ⟨rfl, by simp, rfl, rfl, by simp, rfl⟩

/-- C6 witness: the validation theorem applied to a request with a missing
message field and a task-6 request with a missing messages field. -/
theorem c6_witness :
    (chatTextRun ⟨none, []⟩ (some "key") upHello).status = 400
      ∧ Ev.callUpstream ∉ (chatTextRun ⟨none, []⟩ (some "key") upHello).trace
      ∧ storeOps (chatTextRun ⟨none, []⟩ (some "key") upHello).trace = []
      ∧ (task6Run ⟨none, none⟩ envAllOk upHello).status = 400
      ∧ Ev.callUpstream ∉ (task6Run ⟨none, none⟩ envAllOk upHello).trace
      ∧ storeOps (task6Run ⟨none, none⟩ envAllOk upHello).trace = [] :=
  c6_validation_first ⟨none, []⟩ (some "key") upHello ⟨none, none⟩ envAllOk
    (Or.inl rfl) (Or.inl rfl)

/-- C7: image generation is atomic from the caller's viewpoint — on provider
success with a usable URL the route returns 200 with that URL in the JSON
body and persists exactly one assistant Message of kind image carrying the
URL; on a thrown provider error, or a provider response with a missing or
empty URL, it returns a 500 error and attempts no assistant insert. -/
theorem c7_image_atomicity
    (p c : String) (req : ImgReq) (env : StoreEnv)
    (hp : req.prompt = some (MsgVal.str p)) (hpne : p ≠ "")
    (hc : req.chatId = some c) (hcne : c ≠ "")
    (hok : env.assistantInsertOk = true) :
    (∀ u : String, u ≠ "" →
        (imageRun req env (ImgOutcome.ok (some u))).status = 200
          ∧ (imageRun req env (ImgOutcome.ok (some u))).body = RespBody.imageJson u
          ∧ (createdRows (imageRun req env (ImgOutcome.ok (some u))).trace).filter
              isAssistantOp
              = [StoreOp.insertMsg c (imgCaption p) "assistant" "image" (some u)])
      ∧ ((imageRun req env ImgOutcome.err).status = 500
          ∧ (imageRun req env ImgOutcome.err).body
              = RespBody.errJson "An error occurred while generating the image"
          ∧ assistantOps (imageRun req env ImgOutcome.err).trace = [])
      ∧ ((imageRun req env (ImgOutcome.ok none)).status = 500
          ∧ assistantOps (imageRun req env (ImgOutcome.ok none)).trace = [])
      ∧ ((imageRun req env (ImgOutcome.ok (some ""))).status = 500
          ∧ assistantOps (imageRun req env (ImgOutcome.ok (some ""))).trace = []) := by
  have hv : truthyString req.prompt = some p := by
    simp [truthyString, hp, hpne]
  have herr : imageRun req env ImgOutcome.err
      = ⟨500, [], RespBody.errJson "An error occurred while generating the image",
          [Ev.store (StoreOp.insertMsg c p "user" "image" none) env.userInsertOk,
           Ev.callUpstream]⟩ := by
    unfold imageRun
    rw [hv, hc]
    simp [hcne]
  have hnone : imageRun req env (ImgOutcome.ok none)
      = ⟨500, [], RespBody.errJson "An error occurred while generating the image",
          [Ev.store (StoreOp.insertMsg c p "user" "image" none) env.userInsertOk,
           Ev.callUpstream]⟩ := by
    unfold imageRun
    rw [hv, hc]
    simp [hcne]
  have hempty : imageRun req env (ImgOutcome.ok (some ""))
      = ⟨500, [], RespBody.errJson "An error occurred while generating the image",
          [Ev.store (StoreOp.insertMsg c p "user" "image" none) env.userInsertOk,
           Ev.callUpstream]⟩ := by
    unfold imageRun
    rw [hv, hc]
    simp [hcne]
  have hops : assistantOps
      [Ev.store (StoreOp.insertMsg c p "user" "image" none) env.userInsertOk,
       Ev.callUpstream] = [] := by
    simp [assistantOps, storeOps, List.filterMap_cons, isAssistantOp]
  refine ⟨?_, ?_, ?_, ?_⟩
  · intro u hu
    have hgood : imageRun req env (ImgOutcome.ok (some u))
        = ⟨200, [], RespBody.imageJson u,
            [Ev.store (StoreOp.insertMsg c p "user" "image" none) env.userInsertOk,
             Ev.callUpstream,
             Ev.store (StoreOp.insertMsg c (imgCaption p) "assistant" "image" (some u))
               env.assistantInsertOk]⟩ := by
      unfold imageRun
      rw [hv, hc]
      simp [hcne, hu]
    rw [hgood]
    refine ⟨rfl, rfl, ?_⟩
    cases hu2 : env.userInsertOk <;>
      simp [createdRows, List.filterMap_cons, hok, isAssistantOp]
  · rw [herr]
    exact ⟨rfl, rfl, hops⟩
  · rw [hnone]
    exact ⟨rfl, hops⟩
  · rw [hempty]
    exact ⟨rfl, hops⟩

/-- C7 witness: the atomicity theorem applied to a concrete prompt, chat
identifier, all-successful store, and a concrete returned URL. -/
theorem c7_witness :
    ((imageRun imgReqOk envAllOk (ImgOutcome.ok (some "https://img.test/x.png"))).status
          = 200
      ∧ (imageRun imgReqOk envAllOk (ImgOutcome.ok (some "https://img.test/x.png"))).body
          = RespBody.imageJson "https://img.test/x.png"
      ∧ (createdRows (imageRun imgReqOk envAllOk
            (ImgOutcome.ok (some "https://img.test/x.png"))).trace).filter isAssistantOp
          = [StoreOp.insertMsg "chat-9" (imgCaption "a red bicycle") "assistant"
              "image" (some "https://img.test/x.png")])
      ∧ ((imageRun imgReqOk envAllOk ImgOutcome.err).status = 500
          ∧ (imageRun imgReqOk envAllOk ImgOutcome.err).body
              = RespBody.errJson "An error occurred while generating the image"
          ∧ assistantOps (imageRun imgReqOk envAllOk ImgOutcome.err).trace = []) := by
  have h := c7_image_atomicity "a red bicycle" "chat-9" imgReqOk envAllOk
    rfl (by decide) rfl (by decide) rfl
  exact ⟨h.1 "https://img.test/x.png" (by decide), h.2.1⟩
